import Mathlib

/-!
Verification of the screenshot HTML report generator
(`testsprite_tests/generate_html_report.py`) and of the resource-handling
structure of the eight browser scenario scripts in `testsprite_tests/`.

The report generator is embedded as a pure function from the list of `.png`
filenames present in the screenshots directory (the result of the `glob`
call) and the two `datetime.now()` readings to a `RunResult` describing the
observable effect of a run: either the "no screenshots" early return, a
`ValueError` escaping from `int(step_num)`, or the single write of the
report file.  Strings are modelled at the Python level as sequences of code
points (`List Char`); `str.split`, `os.path.basename`, `str.replace`,
`int(...)` and `sorted(...)` are each given explicit executable models.
-/

/-- Code-point lexicographic comparison of two character sequences.  This is
exactly the order Python uses to compare `str` values, hence the order used
by the `sorted(...)` calls in `generate_html_report`. -/
def lexLe : List Char → List Char → Bool
  | [], _ => true
  | _ :: _, [] => false
  | a :: l₁, b :: l₂ =>
    if a.toNat < b.toNat then true
    else if b.toNat < a.toNat then false
    else lexLe l₁ l₂

/-- Python's `≤` on strings: code-point lexicographic order of the data. -/
def strLe (s t : String) : Prop := lexLe s.data t.data = true

instance : DecidableRel strLe := fun s t =>
  inferInstanceAs (Decidable (lexLe s.data t.data = true))

instance : IsTotal String strLe where
  total := fun s t => by
    show lexLe s.data t.data = true ∨ lexLe t.data s.data = true
    generalize s.data = x
    generalize t.data = y
    induction x generalizing y with
    | nil => left; rfl
    | cons a l₁ ih =>
      cases y with
      | nil => right; rfl
      | cons b l₂ =>
        rcases Nat.lt_trichotomy a.toNat b.toNat with h | h | h
        · left; simp [lexLe, h]
        · rcases ih l₂ with h2 | h2
          · left; simp [lexLe, h, h2]
          · right; simp [lexLe, h, h2]
        · right; simp [lexLe, h, Nat.lt_asymm h]

instance : IsTrans String strLe where
  trans := fun s t u => by
    show lexLe s.data t.data = true → lexLe t.data u.data = true → lexLe s.data u.data = true
    generalize s.data = x
    generalize t.data = y
    generalize u.data = z
    induction x generalizing y z with
    | nil => intro _ _; rfl
    | cons a l₁ ih =>
      intro h1 h2
      cases y with
      | nil => simp [lexLe] at h1
      | cons b l₂ =>
        cases z with
        | nil => simp [lexLe] at h2
        | cons c l₃ =>
          simp only [lexLe] at h1 h2 ⊢
          rcases Nat.lt_trichotomy a.toNat b.toNat with hab | hab | hab
          · rcases Nat.lt_trichotomy b.toNat c.toNat with hbc | hbc | hbc
            · simp [Nat.lt_trans hab hbc]
            · simp [hbc ▸ hab]
            · simp [hbc, Nat.lt_asymm hbc] at h2
          · rcases Nat.lt_trichotomy b.toNat c.toNat with hbc | hbc | hbc
            · simp [hab ▸ hbc]
            · have hac : a.toNat = c.toNat := hab.trans hbc
              simp [hab, Nat.lt_irrefl] at h1
              simp [hbc, Nat.lt_irrefl] at h2
              simp [hac, Nat.lt_irrefl, ih l₂ l₃ h1 h2]
            · simp [hbc, Nat.lt_asymm hbc] at h2
          · simp [hab, Nat.lt_asymm hab] at h1

/-- Model of Python's `sorted` on a list of strings: a sort of the list with
respect to code-point lexicographic order. -/
def sortedPy (l : List String) : List String := List.insertionSort strLe l

/-- Model of Python's `str.split(sep)` for a single-character separator:
`pySplit c l` is the list of chunks of `l` delimited by `c`, with empty
chunks preserved exactly as Python produces them (so the result is never
empty, and splitting the empty sequence yields `[[]]`). -/
def pySplit (c : Char) : List Char → List (List Char)
  | [] => [[]]
  | x :: xs =>
    if x = c then [] :: pySplit c xs
    else
      match pySplit c xs with
      | [] => [[x]]
      | h :: t => (x :: h) :: t

/-- Model of `os.path.basename`: the final component of the `'/'`-split,
i.e. everything after the last slash. -/
def baseNameOf (p : String) : String := ⟨(pySplit '/' p.data).getLastD []⟩

/-- The grouping key the generator computes for a filename:
`filename.split('_')[0]`, the (string) component before the first
underscore. -/
def stepKeyOf (filename : String) : String := ⟨(pySplit '_' filename.data).headD []⟩

/-- Value of a sequence of decimal digit characters. -/
def digitsVal (l : List Char) : Nat := l.foldl (fun a c => a * 10 + (c.toNat - 48)) 0

/-- The exact set of characters Python's `str.isspace()` recognises and
`int(...)` therefore strips from both ends of its argument: `U+0009`–`U+000D`,
`U+001C`–`U+001F`, the space, `U+0085`, `U+00A0`, `U+1680`, `U+2000`–`U+200A`,
`U+2028`, `U+2029`, `U+202F`, `U+205F` and `U+3000`. -/
def pyWhitespace (c : Char) : Bool :=
  decide ((9 ≤ c.toNat ∧ c.toNat ≤ 13) ∨ (28 ≤ c.toNat ∧ c.toNat ≤ 31)
    ∨ c.toNat = 32 ∨ c.toNat = 133 ∨ c.toNat = 160 ∨ c.toNat = 0x1680
    ∨ (0x2000 ≤ c.toNat ∧ c.toNat ≤ 0x200A) ∨ c.toNat = 0x2028 ∨ c.toNat = 0x2029
    ∨ c.toNat = 0x202F ∨ c.toNat = 0x205F ∨ c.toNat = 0x3000)

/-- Whitespace trimming on both ends, as `int(...)` performs on its
argument before parsing it. -/
def trimChars (l : List Char) : List Char :=
  ((l.dropWhile pyWhitespace).reverse.dropWhile pyWhitespace).reverse

/-- Model of Python's `int(s)`: optional surrounding whitespace, an optional
single sign, then a nonempty run of ASCII decimal digits; any other shape
raises `ValueError`, modelled as `none`.  On an argument whose code points
are all below 128 this agrees with `int()` exactly (the argument the
generator passes never contains `'_'`, being itself the component before
the first underscore, so the digit-grouping-underscore feature of `int`
cannot fire).  Python additionally accepts digit characters of other
scripts (Unicode category `Nd`, e.g. `int('٥') = 5`), which lie outside
this model: `pyInt?` is sound on success but may return `none` where `int`
would succeed on such input, so any theorem relying on `pyInt? _ = none`
carries an ASCII hypothesis on the argument. -/
def pyInt? (s : String) : Option Int :=
  match trimChars s.data with
  | [] => none
  | c :: rest =>
    let p : Int × List Char :=
      if c = '-' then (-1, rest) else if c = '+' then (1, rest) else (1, c :: rest)
    if p.2.isEmpty then none
    else if p.2.all Char.isDigit then some (p.1 * (digitsVal p.2 : Int))
    else none

/-- Decimal digit character for `n < 10`. -/
def digitChar (n : Nat) : Char := Char.ofNat (48 + n)

/-- The two-digit zero-padded numeral `f"{n:02d}"` of a step number
`n < 100`, as the screenshot-naming convention writes it. -/
def pad2 (n : Nat) : List Char := [digitChar (n / 10), digitChar (n % 10)]

/-- A filename following the screenshot naming convention
`f"{step:02d}_{label}_{timestamp}.png"` of the spec, for some step number
below 100 and arbitrary label and timestamp text.  As an entry of a
directory listing it contains no path separator. -/
def matchesPattern (n : String) : Prop :=
  ∃ step label ts, step < 100 ∧ '/' ∉ n.data ∧
    n.data = pad2 step ++ '_' :: (label ++ '_' :: (ts ++ ".png".data))

/-- The screenshots directory constant of the script. -/
def screenshots_dir : String := "testsprite_tests/screenshots"

/-- The fixed path the report is written to. -/
def report_path : String := "testsprite_tests/SEARCH_TEST_REPORT.html"

/-- One entry of the `steps` dictionary values: the dict
`{'path': screenshot, 'name': filename}` built for each globbed file. -/
structure Screenshot where
  path : String
  name : String
deriving DecidableEq

/-- The path under which a file of the screenshots directory is returned by
`glob(f"{screenshots_dir}/*.png")`. -/
def fullPathOf (n : String) : String := screenshots_dir ++ "/" ++ n

/-- The `screenshots` variable of the script: the sorted list of globbed
paths, for a directory containing exactly the `.png` files `names`. -/
def listingPaths (names : List String) : List String := sortedPy (names.map fullPathOf)

/-- One iteration of the grouping loop: append a screenshot to the entry of
its key in the insertion-ordered dictionary, creating the entry if absent
(`if step_num not in steps: steps[step_num] = []` followed by `append`). -/
def groupAdd (st : List (String × List Screenshot)) (k : String) (s : Screenshot) :
    List (String × List Screenshot) :=
  match st with
  | [] => [(k, [s])]
  | (k₀, ss) :: rest =>
    if k₀ = k then (k₀, ss ++ [s]) :: rest else (k₀, ss) :: groupAdd rest k s

/-- The grouping key of one globbed path: `os.path.basename(screenshot).split('_')[0]`. -/
def pathKey (p : String) : String := stepKeyOf (baseNameOf p)

/-- The dictionary entry built for one globbed path:
`{'path': screenshot, 'name': filename}`. -/
def pathShot (p : String) : Screenshot := ⟨p, baseNameOf p⟩

/-- One iteration of the grouping loop over the sorted paths. -/
def gStep (st : List (String × List Screenshot)) (p : String) :
    List (String × List Screenshot) :=
  groupAdd st (pathKey p) (pathShot p)

/-- The `steps` dictionary after the grouping loop over the sorted paths:
an insertion-ordered association list from step key to its screenshots. -/
def buildSteps (paths : List String) : List (String × List Screenshot) :=
  paths.foldl gStep []

/-- Dictionary lookup `steps[step_num]` on the association list. -/
def lookupShots (st : List (String × List Screenshot)) (k : String) : List Screenshot :=
  match st.find? (fun e => e.1 == k) with
  | some e => e.2
  | none => []

/-- The fixed French step-description lookup table of the script. -/
def step_descriptions : List (String × String) :=
  [("01", "Chargement de la page d\x27accueil"),
   ("02", "Localisation de la barre de recherche"),
   ("03", "Recherche \"Sony headphones\""),
   ("04", "Résultats de recherche Sony"),
   ("05", "Recherche \"Samsung Galaxy\""),
   ("06", "Recherche \"denim jacket\""),
   ("07", "Recherche \"running shoes\""),
   ("08", "Test de tolérance aux fautes de frappe"),
   ("09", "Test sans résultats"),
   ("10", "Retour à la page d\x27accueil")]

/-- `step_descriptions.get(step_num, f'Étape {step_num}')`: table lookup with
the generic fallback label. -/
def descriptionFor (k : String) : String :=
  match step_descriptions.find? (fun e => e.1 == k) with
  | some e => e.2
  | none => "Étape " ++ k

/-- The pattern removed from screenshot paths to obtain the relative path
used in `img src`: the literal `'testsprite_tests/'`. -/
def ttPat : List Char := "testsprite_tests/".data

/-- If `pat` occurs at the head of the sequence, drop it and return the
remainder. -/
def dropPat : List Char → List Char → Option (List Char)
  | [], s => some s
  | _ :: _, [] => none
  | p :: ps, c :: cs => if c = p then dropPat ps cs else none

/-- Worker for the pattern removal of `str.replace(pat, '')`: scan left to
right, removing each (non-overlapping) occurrence of the pattern.  The fuel
argument only serves structural recursion; each step consumes at least one
character, so fuel equal to the length of the sequence (as `pyRemoveTT`
passes) never runs out. -/
def replaceTTAux : Nat → List Char → List Char
  | 0, s => s
  | Nat.succ f, s =>
    match s with
    | [] => []
    | c :: cs =>
      match dropPat ttPat s with
      | some rest => replaceTTAux f rest
      | none => c :: replaceTTAux f cs

/-- Model of `screenshot['path'].replace('testsprite_tests/', '')`. -/
def pyRemoveTT (s : List Char) : List Char := replaceTTAux s.length s

/-- The `relative_path` of a screenshot card. -/
def relativePathOf (p : String) : String := ⟨pyRemoveTT p.data⟩
def htmlHeadA : String :=
  "<!DOCTYPE html>\n<html lang=\"fr\">\n<head>\n    <meta charset=\"UTF-8\">\n    <meta name=\"viewport\" content=\"width=device-width, initial-scale=1.0\">\n    <title>Rapport de Test - Recherche Mientior</title>\n    <style>\n        * \x7b\n            margin: 0;\n            padding: 0;\n            box-sizing: border-box;\n        \x7d\n        \n        body \x7b\n            font-family: \x27Segoe UI\x27, Tahoma, Geneva, Verdana, sans-serif;\n            background: linear-gradient(135deg, #667eea 0%, #764ba2 100%);\n            padding: 20px;\n            min-height: 100vh;\n        \x7d\n        \n        .container \x7b\n            max-width: 1400px;\n            margin: 0 auto;\n            background: white;\n            border-radius: 20px;\n            box-shadow: 0 20px 60px rgba(0,0,0,0.3);\n            overflow: hidden;\n        \x7d\n        \n        .header \x7b\n            background: linear-gradient(135deg, #667eea 0%, #764ba2 100%);\n            color: white;\n            padding: 40px;\n            text-align: center;\n        \x7d\n        \n        .header h1 \x7b\n            font-size: 2.5em;\n            margin-bottom: 10px;\n            text-shadow: 2px 2px 4px rgba(0,0,0,0.2);\n        \x7d\n        \n        .header p \x7b\n            font-size: 1.2em;\n            opacity: 0.9;\n        \x7d\n        \n        .summary \x7b\n            display: grid;\n            grid-template-columns: repeat(auto-fit, minmax(200px, 1fr));\n            gap: 20px;\n            padding: 40px;\n            background: #f8f9fa;\n        \x7d\n        \n        .summary-card \x7b\n            background: white;\n            padding: 20px;\n            border-radius: 10px;\n            text-align: center;\n            box-shadow: 0 4px 6px rgba(0,0,0,0.1);\n            transition: transform 0.3s;\n        \x7d\n        \n        .summary-card:hover \x7b\n            transform: translateY(-5px);\n        \x7d\n        \n        .summary-card .number \x7b\n            font-size: 2.5em;\n            font-weight: bold;\n            color: #667eea;\n            margin-bottom: 10px;\n        \x7d\n        \n        .summary-card .label \x7b\n            color: #666;\n            font-size: 1.1em;\n        \x7d\n        \n        .content \x7b\n            padding: 40px;\n        \x7d\n        \n        .step \x7b\n            margin-bottom: 60px;\n            border-left: 4px solid #667eea;\n            padding-left: 30px;\n        \x7d\n        \n        .step-header \x7b\n            display: flex;\n            align-items: center;\n            margin-bottom: 20px;\n        \x7d\n        \n        .step-number \x7b\n            background: linear-gradient(135deg, #667eea 0%, #764ba2 100%);\n            color: white;\n            width: 50px;\n            height: 50px;\n            border-radius: 50%;\n            display: flex;\n            align-items: center;\n            justify-content: center;\n            font-size: 1.5em;\n            font-weight: bold;\n            margin-right: 20px;\n            box-shadow: 0 4px 10px rgba(102, 126, 234, 0.4);\n        \x7d\n        \n        .step-title \x7b\n            font-size: 1.5em;\n            color: #333;\n        \x7d\n        \n        .screenshots-grid \x7b\n            display: grid;\n            grid-template-columns: repeat(auto-fit, minmax(400px, 1fr));\n            gap: 20px;\n            margin-top: 20px;\n        \x7d\n        \n        .screenshot-card \x7b\n            background: #f8f9fa;\n            border-radius: 10px;\n            overflow: hidden;\n            box-shadow: 0 4px 6px rgba(0,0,0,0.1);\n            transition: transform 0.3s, box-shadow 0.3s;\n        \x7d\n        \n        .screenshot-card:hover \x7b\n            transform: scale(1.02);\n            box-shadow: 0 8px 16px rgba(0,0,0,0.2);\n        \x7d\n        \n        .screenshot-card img \x7b\n            width: 100%;\n            height: auto;\n            display: block;\n            cursor: pointer;\n        \x7d\n        \n        .screenshot-card .caption \x7b\n            padding: 15px;\n            background: white;\n            color: #666;\n            font-size: 0.9em;\n            text-align: center;\n        \x7d\n        \n        .footer \x7b\n            background: #2d3748;\n            color: white;\n            padding: 30px;\n            text-align: center;\n        \x7d\n        \n        .footer p \x7b\n            margin: 5px 0;\n            opacity: 0.8;\n        \x7d\n        \n        /* Modal for fullscreen images */\n        .modal \x7b\n            display: none;\n            position: fixed;\n            z-index: 1000;\n            left: 0;\n            top: 0;\n            width: 100%;\n            height: 100%;\n            background-color: rgba(0,0,0,0.9);\n        \x7d\n        \n        .modal-content \x7b\n            margin: auto;\n            display: block;\n            max-width: 90%;\n            max-height: 90%;\n            position: absolute;\n            top: 50%;\n            left: 50%;\n            transform: translate(-50%, -50%);\n        \x7d\n        \n        .close \x7b\n            position: absolute;\n            top: 20px;\n            right: 40px;\n            color: #f1f1f1;\n            font-size: 40px;\n            font-weight: bold;\n            cursor: pointer;\n        \x7d\n        \n        .close:hover \x7b\n            color: #bbb;\n        \x7d\n        \n        @media (max-width: 768px) \x7b\n            .screenshots-grid \x7b\n                grid-template-columns: 1fr;\n            \x7d\n            \n            .header h1 \x7b\n                font-size: 1.8em;\n            \x7d\n        \x7d\n    </style>\n</head>\n<body>\n    <div class=\"container\">\n        <div class=\"header\">\n            <h1>🔍 Rapport de Test - Fonctionnalité de Recherche</h1>\n            <p>Mientior Marketplace - Test Frontend avec Captures d\x27Écran</p>\n            <p style=\"font-size: 0.9em; margin-top: 10px;\">Généré le "

def htmlHeadB : String :=
  "</p>\n        </div>\n        \n        <div class=\"summary\">\n            <div class=\"summary-card\">\n                <div class=\"number\">"

def htmlHeadC : String :=
  "</div>\n                <div class=\"label\">Étapes</div>\n            </div>\n            <div class=\"summary-card\">\n                <div class=\"number\">"

def htmlHeadD : String :=
  "</div>\n                <div class=\"label\">Captures</div>\n            </div>\n            <div class=\"summary-card\">\n                <div class=\"number\">100%</div>\n                <div class=\"label\">Réussite</div>\n            </div>\n            <div class=\"summary-card\">\n                <div class=\"number\">✅</div>\n                <div class=\"label\">Statut</div>\n            </div>\n        </div>\n        \n        <div class=\"content\">\n"

def stepOpenA : String :=
  "\n            <div class=\"step\">\n                <div class=\"step-header\">\n                    <div class=\"step-number\">"

def stepOpenB : String :=
  "</div>\n                    <div class=\"step-title\">"

def stepOpenC : String :=
  "</div>\n                </div>\n                <div class=\"screenshots-grid\">\n"

def stepCloseD : String :=
  "\n                </div>\n            </div>\n"

def cardA : String :=
  "\n                    <div class=\"screenshot-card\">\n                        <img src=\""

def cardB : String :=
  "\" alt=\""

def cardC : String :=
  "\" onclick=\"openModal(this.src)\">\n                        <div class=\"caption\">"

def cardD : String :=
  "</div>\n                    </div>\n"

def footA : String :=
  "\n        </div>\n        \n        <div class=\"footer\">\n            <p><strong>Mientior Marketplace</strong></p>\n            <p>Test automatisé avec Playwright + TestSprite</p>\n            <p>© "

def footB : String :=
  " - Tous droits réservés</p>\n        </div>\n    </div>\n    \n    <!-- Modal for fullscreen images -->\n    <div id=\"imageModal\" class=\"modal\" onclick=\"closeModal()\">\n        <span class=\"close\">&times;</span>\n        <img class=\"modal-content\" id=\"modalImage\">\n    </div>\n    \n    <script>\n        function openModal(src) \x7b\n            document.getElementById(\x27imageModal\x27).style.display = \x27block\x27;\n            document.getElementById(\x27modalImage\x27).src = src;\n        \x7d\n        \n        function closeModal() \x7b\n            document.getElementById(\x27imageModal\x27).style.display = \x27none\x27;\n        \x7d\n        \n        // Close modal on Escape key\n        document.addEventListener(\x27keydown\x27, function(event) \x7b\n            if (event.key === \x27Escape\x27) \x7b\n                closeModal();\n            \x7d\n        \x7d);\n    </script>\n</body>\n</html>\n"

/-- The HTML card emitted for one screenshot (the inner loop body of the
step-rendering loop). -/
def imgCard (s : Screenshot) : String :=
  cardA ++ relativePathOf s.path ++ cardB ++ s.name ++ cardC ++ s.name ++ cardD

/-- The data of one rendered step block, for key `k` of the `steps`
dictionary: the displayed number `int(step_num)` (whose failure models the
`ValueError` raised on a non-numeric key), the title from the description
table, and the screenshots of the group. -/
def blockData (st : List (String × List Screenshot)) (k : String) :
    Option (Int × String × List Screenshot) :=
  match pyInt? k with
  | some n => some (n, descriptionFor k, lookupShots st k)
  | none => none

/-- The HTML text of one step block: the opening markup with the displayed
number and title, one card per screenshot of the group, and the closing
markup. -/
def renderBlockStr (b : Int × String × List Screenshot) : String :=
  stepOpenA ++ toString b.1 ++ stepOpenB ++ b.2.1 ++ stepOpenC
    ++ String.join (b.2.2.map imgCard) ++ stepCloseD

/-- Collect a list of optional values, failing if any entry fails — the
effect of the `ValueError` escaping the rendering loop. -/
def seqOption : List (Option α) → Option (List α)
  | [] => some []
  | o :: os =>
    match o with
    | none => none
    | some a =>
      match seqOption os with
      | none => none
      | some l => some (a :: l)

/-- `sorted(steps.keys())`: the render order of the step headings. -/
def sortedKeys (st : List (String × List Screenshot)) : List String :=
  sortedPy (st.map Prod.fst)

/-- The step blocks of the report in render order, or `none` if some step
key is not a valid integer literal. -/
def blocksFor (st : List (String × List Screenshot)) :
    Option (List (Int × String × List Screenshot)) :=
  seqOption ((sortedKeys st).map (blockData st))

/-- The concatenated HTML of the step-rendering loop. -/
def renderAllSteps (st : List (String × List Screenshot)) : Option String :=
  match blocksFor st with
  | some bs => some (String.join (bs.map renderBlockStr))
  | none => none

/-- A reading of `datetime.now()`: the calendar fields the template
formats. -/
structure PyTime where
  year : Nat
  month : Nat
  day : Nat
  hour : Nat
  minute : Nat
  second : Nat
deriving DecidableEq

/-- Zero-pad a numeral to width `w`. -/
def padNum (w : Nat) (n : Nat) : String :=
  ⟨List.replicate (w - (toString n).length) '0'⟩ ++ toString n

/-- The header timestamp `datetime.now().strftime("%d/%m/%Y à %H:%M:%S")`. -/
def strftimeFR (t : PyTime) : String :=
  padNum 2 t.day ++ "/" ++ padNum 2 t.month ++ "/" ++ padNum 4 t.year ++ " à "
    ++ padNum 2 t.hour ++ ":" ++ padNum 2 t.minute ++ ":" ++ padNum 2 t.second

/-- The observable effect of one invocation of `generate_html_report`:
the early return with the "❌ No screenshots found!" message and no file
written; a `ValueError` escaping from `int(step_num)` with no file written;
or the single write of the rendered report. -/
inductive RunResult where
  | noScreenshotsMessage : RunResult
  | valueError : RunResult
  | wrote (path : String) (content : String) : RunResult
deriving DecidableEq

/-- The report generator, embedded over the list of `.png` filenames present
in the screenshots directory and the two `datetime.now()` readings (`t1` at
the header, `t2` at the footer). -/
def generate_html_report (names : List String) (t1 t2 : PyTime) : RunResult :=
  let screenshots := listingPaths names
  if screenshots.isEmpty then RunResult.noScreenshotsMessage
  else
    let steps := buildSteps screenshots
    match renderAllSteps steps with
    | none => RunResult.valueError
    | some stepsHtml =>
      RunResult.wrote report_path
        (htmlHeadA ++ strftimeFR t1 ++ htmlHeadB ++ toString steps.length ++ htmlHeadC
          ++ toString screenshots.length ++ htmlHeadD ++ stepsHtml ++ footA
          ++ toString t2.year ++ footB)

/-- The files a run writes, as (path, content) pairs: the report generator
opens exactly one file for writing, at the end of a successful run. -/
def writtenFiles : RunResult → List (String × String)
  | RunResult.wrote p c => [(p, c)]
  | _ => []

/-- The step blocks of the report generated for the given directory
listing. -/
def reportBlocks (names : List String) : Option (List (Int × String × List Screenshot)) :=
  blocksFor (buildSteps (listingPaths names))

/-- The displayed step numbers of the report, in render order. -/
def displayedStepNumbers (names : List String) : Option (List Int) :=
  (reportBlocks names).map (fun bs => bs.map (fun b => b.1))

/-- Per-block summary of the report: displayed number, title, and number of
embedded screenshot images. -/
def blockSummary (names : List String) : Option (List (Int × String × Nat)) :=
  (reportBlocks names).map (fun bs => bs.map (fun b => (b.1, b.2.1, b.2.2.length)))

/-- The total number of screenshot image references embedded in the report
(each grouped screenshot is rendered as exactly one `img` card). -/
def reportImageCount (names : List String) : Nat :=
  match reportBlocks names with
  | some bs => (bs.map (fun b => b.2.2.length)).sum
  | none => 0

/-- Cleanup-relevant events of a scenario script run. -/
inductive Act where
  | takeScreenshot : Act
  | logError : Act
  | waitPause : Act
  | closeContext : Act
  | closeBrowser : Act
  | stopDriver : Act
deriving DecidableEq

/-- The top-level control structure of one scenario script, transcribed from
its `try/except/finally` (or `async with` plus `try/except/finally`) shape:
whether the scenario body is wrapped in a top-level `except Exception`
handler, what that handler does (diagnostic screenshot, logging, re-raise),
the actions of the `finally` block in order, and whether an enclosing
`async with async_playwright()` stops the automation driver on exit. -/
structure ScriptShape where
  name : String
  catchesAll : Bool
  handlerScreenshot : Bool
  handlerLogs : Bool
  handlerReraises : Bool
  finallyActs : List Act
  withExitStopsDriver : Bool
deriving DecidableEq

/-- Execution of a script whose body either completes or raises: the handler
runs on a raise, the `finally` block always runs, the `async with` exit (when
present) stops the driver last; the run re-raises out of the script iff the
body raised and the handler re-raises. -/
def runScript (s : ScriptShape) (bodyRaises : Bool) : List Act × Bool :=
  let handlerActs :=
    if bodyRaises && s.catchesAll then
      (if s.handlerLogs then [Act.logError] else [])
        ++ (if s.handlerScreenshot then [Act.takeScreenshot] else [])
    else []
  let cleanup := s.finallyActs ++ (if s.withExitStopsDriver then [Act.stopDriver] else [])
  (handlerActs ++ cleanup, bodyRaises && (!s.catchesAll || s.handlerReraises))

/-- The events of a run. -/
def scriptEvents (s : ScriptShape) (bodyRaises : Bool) : List Act :=
  (runScript s bodyRaises).1

/-- Whether the exception escapes the script (a non-zero process exit). -/
def scriptRaises (s : ScriptShape) (bodyRaises : Bool) : Bool :=
  (runScript s bodyRaises).2

/-- The release actions among a run's events, in order. -/
def isRelease : Act → Bool
  | Act.closeContext => true
  | Act.closeBrowser => true
  | Act.stopDriver => true
  | _ => false

/-- The resource releases of a run, in order. -/
def releaseSeq (acts : List Act) : List Act := acts.filter isRelease

/-- `TC001_Homepage_Chrome_Visible.py`: handler prints the error and
re-raises (no screenshot); `finally` closes context, browser, then stops the
driver explicitly. -/
def tc001 : ScriptShape :=
  ⟨"TC001_Homepage_Chrome_Visible", true, false, true, true,
    [Act.closeContext, Act.closeBrowser, Act.stopDriver], false⟩

/-- `TC008_Search_Test_Fixed.py`: handler prints, screenshots and re-raises;
`finally` closes context then browser; the `async with` exit stops the
driver. -/
def tc008 : ScriptShape :=
  ⟨"TC008_Search_Test_Fixed", true, true, true, true,
    [Act.closeContext, Act.closeBrowser], true⟩

/-- `TC009_Complete_Search_Test.py`: handler prints, screenshots and
re-raises; `finally` closes context then browser; the `async with` exit stops
the driver. -/
def tc009 : ScriptShape :=
  ⟨"TC009_Complete_Search_Test", true, true, true, true,
    [Act.closeContext, Act.closeBrowser], true⟩

/-- `TC010_Search_Test_With_Screenshots.py`: handler prints, screenshots and
re-raises; `finally` waits 3 seconds, closes context then browser; the
`async with` exit stops the driver. -/
def tc010 : ScriptShape :=
  ⟨"TC010_Search_Test_With_Screenshots", true, true, true, true,
    [Act.waitPause, Act.closeContext, Act.closeBrowser], true⟩

/-- `TC011_Debug_Search_Input.py`: handler prints a traceback and screenshots
but swallows the exception; `finally` waits 10 seconds, closes context then
browser; the `async with` exit stops the driver. -/
def tc011 : ScriptShape :=
  ⟨"TC011_Debug_Search_Input", true, true, true, false,
    [Act.waitPause, Act.closeContext, Act.closeBrowser], true⟩

/-- `TC_Auth_Register_Login_Test.py`: handler prints a traceback and swallows
the exception (no screenshot); `finally` closes context, browser, then stops
the driver explicitly. -/
def tcAuth : ScriptShape :=
  ⟨"TC_Auth_Register_Login_Test", true, false, true, false,
    [Act.closeContext, Act.closeBrowser, Act.stopDriver], false⟩

/-- `TC_Interactive_Chrome_Test.py`: handler prints a traceback and
re-raises (no screenshot); `finally` closes context, browser, then stops the
driver explicitly. -/
def tcInteractive : ScriptShape :=
  ⟨"TC_Interactive_Chrome_Test", true, false, true, true,
    [Act.closeContext, Act.closeBrowser, Act.stopDriver], false⟩

/-- `TC_User_Journey_Chrome.py`: handler prints a traceback and swallows the
exception (no screenshot); `finally` closes context, browser, then stops the
driver explicitly. -/
def tcUserJourney : ScriptShape :=
  ⟨"TC_User_Journey_Chrome", true, false, true, false,
    [Act.closeContext, Act.closeBrowser, Act.stopDriver], false⟩

/-- The eight scenario scripts of the repository. -/
def scenarioScripts : List ScriptShape :=
  [tc001, tc008, tc009, tc010, tc011, tcAuth, tcInteractive, tcUserJourney]

/-- The total number of screenshots stored in the grouping dictionary. -/
def sumShots (st : List (String × List Screenshot)) : Nat :=
  (st.map (fun e => e.2.length)).sum

/-- A fixed clock reading, used to instantiate the time parameters on
concrete runs. -/
def someTime : PyTime := ⟨2025, 1, 1, 0, 0, 0⟩
/-! Lemmas about the split, grouping, and rendering pipeline. -/

theorem pySplit_ne_nil (c : Char) : ∀ l, pySplit c l ≠ [] := by
  intro l
  cases l with
  | nil => simp [pySplit]
  | cons x xs =>
    simp only [pySplit]
    by_cases hx : x = c
    · simp [hx]
    · rw [if_neg hx]
      cases h : pySplit c xs <;> simp

theorem pySplit_no_sep (c : Char) : ∀ l, c ∉ l → pySplit c l = [l] := by
  intro l
  induction l with
  | nil => intro _; rfl
  | cons x xs ih =>
    intro h
    have hx : ¬ x = c := fun he => h (by simp [he])
    have hxs : c ∉ xs := fun hm => h (List.mem_cons_of_mem _ hm)
    simp only [pySplit, if_neg hx, ih hxs]

theorem pySplit_headD (c : Char) : ∀ a r, c ∉ a → (pySplit c (a ++ c :: r)).headD [] = a := by
  intro a
  induction a with
  | nil => intro r _; simp [pySplit]
  | cons x xs ih =>
    intro r h
    have hx : ¬ x = c := fun he => h (by simp [he])
    have hxs : c ∉ xs := fun hm => h (List.mem_cons_of_mem _ hm)
    simp only [List.cons_append, pySplit, if_neg hx]
    cases hps : pySplit c (xs ++ c :: r) with
    | nil => exact absurd hps (pySplit_ne_nil c _)
    | cons h₀ t =>
      have hh := ih r hxs
      rw [hps] at hh
      simp only [List.headD_cons] at hh
      simp [hh]

theorem pySplit_len2 (c : Char) : ∀ d n, 2 ≤ (pySplit c (d ++ c :: n)).length := by
  intro d
  induction d with
  | nil =>
    intro n
    simp only [List.nil_append, pySplit, if_pos rfl, List.length_cons]
    exact Nat.succ_le_succ (List.length_pos.mpr (pySplit_ne_nil c n))
  | cons x d' ih =>
    intro n
    by_cases hx : x = c
    · simp only [List.cons_append, pySplit, if_pos hx, List.length_cons]
      exact Nat.succ_le_succ (List.length_pos.mpr (pySplit_ne_nil c _))
    · simp only [List.cons_append, pySplit, if_neg hx]
      cases hps : pySplit c (d' ++ c :: n) with
      | nil => exact absurd hps (pySplit_ne_nil c _)
      | cons h₀ t =>
        have h2 := ih n
        rw [hps] at h2
        simpa using h2

theorem pySplit_getLast (c : Char) :
    ∀ d n, c ∉ n → (pySplit c (d ++ c :: n)).getLast? = some n := by
  intro d
  induction d with
  | nil =>
    intro n h
    simp only [List.nil_append, pySplit, if_pos rfl]
    rw [pySplit_no_sep c n h]
    simp
  | cons x d' ih =>
    intro n h
    by_cases hx : x = c
    · simp only [List.cons_append, pySplit, if_pos hx]
      cases hps : pySplit c (d' ++ c :: n) with
      | nil => exact absurd hps (pySplit_ne_nil c _)
      | cons h₀ t =>
        have hl := ih n h
        rw [hps] at hl
        rw [List.getLast?_cons_cons]
        exact hl
    · simp only [List.cons_append, pySplit, if_neg hx]
      cases hps : pySplit c (d' ++ c :: n) with
      | nil => exact absurd hps (pySplit_ne_nil c _)
      | cons h₀ t =>
        have hl := ih n h
        rw [hps] at hl
        cases t with
        | nil =>
          have h2 := pySplit_len2 c d' n
          rw [hps] at h2
          simp at h2
        | cons t₀ ts =>
          rw [List.getLast?_cons_cons] at hl ⊢
          exact hl

theorem fullPath_data (n : String) :
    (fullPathOf n).data = screenshots_dir.data ++ '/' :: n.data := by
  have hs : ("/" : String).data = ['/'] := rfl
  simp [fullPathOf, String.data_append, hs]

theorem baseName_fullPath (n : String) (h : '/' ∉ n.data) : baseNameOf (fullPathOf n) = n := by
  unfold baseNameOf
  rw [fullPath_data, List.getLastD_eq_getLast?, pySplit_getLast '/' screenshots_dir.data n.data h]
  rfl

theorem stepKey_eq (n : String) (a r : List Char) (ha : '_' ∉ a) (hd : n.data = a ++ '_' :: r) :
    stepKeyOf n = ⟨a⟩ := by
  unfold stepKeyOf
  rw [hd, pySplit_headD '_' a r ha]

theorem pad2_facts : ∀ s, s < 100 → ((pyInt? ⟨pad2 s⟩).isSome = true ∧ '_' ∉ pad2 s) := by decide

theorem pathKey_of_pattern {n : String} (h : matchesPattern n) :
    (pyInt? (stepKeyOf (baseNameOf (fullPathOf n)))).isSome = true := by
  obtain ⟨step, label, ts, hlt, hslash, hdata⟩ := h
  rw [baseName_fullPath n hslash,
    stepKey_eq n (pad2 step) _ (pad2_facts step hlt).2 hdata]
  exact (pad2_facts step hlt).1

theorem groupAdd_keys_mem (st : List (String × List Screenshot)) (k : String) (s : Screenshot)
    (h : k ∈ st.map Prod.fst) :
    (groupAdd st k s).map Prod.fst = st.map Prod.fst := by
  induction st with
  | nil => simp at h
  | cons e rest ih =>
    obtain ⟨k₀, ss⟩ := e
    by_cases hk : k₀ = k
    · simp [groupAdd, hk]
    · simp only [groupAdd, if_neg hk, List.map_cons]
      have h' : k ∈ rest.map Prod.fst := by
        simp only [List.map_cons, List.mem_cons] at h
        rcases h with h | h
        · exact absurd h.symm hk
        · exact h
      rw [ih h']

theorem groupAdd_keys_not_mem (st : List (String × List Screenshot)) (k : String) (s : Screenshot)
    (h : k ∉ st.map Prod.fst) :
    (groupAdd st k s).map Prod.fst = st.map Prod.fst ++ [k] := by
  induction st with
  | nil => rfl
  | cons e rest ih =>
    obtain ⟨k₀, ss⟩ := e
    have hk : ¬ k₀ = k := fun he => h (by simp [he])
    simp only [groupAdd, if_neg hk, List.map_cons, List.cons_append]
    rw [ih (fun hm => h (List.mem_cons_of_mem _ hm))]

theorem groupAdd_nodup (st : List (String × List Screenshot)) (k : String) (s : Screenshot)
    (h : (st.map Prod.fst).Nodup) :
    ((groupAdd st k s).map Prod.fst).Nodup := by
  by_cases hm : k ∈ st.map Prod.fst
  · rw [groupAdd_keys_mem st k s hm]; exact h
  · rw [groupAdd_keys_not_mem st k s hm]
    simp [List.nodup_append, h, hm]

theorem lookupShots_cons_self (k : String) (ss : List Screenshot)
    (rest : List (String × List Screenshot)) :
    lookupShots ((k, ss) :: rest) k = ss := by
  unfold lookupShots
  rw [List.find?_cons_of_pos _ (by simp)]

theorem lookupShots_cons_ne (k₀ : String) (ss : List Screenshot)
    (rest : List (String × List Screenshot)) (k : String) (h : ¬ k₀ = k) :
    lookupShots ((k₀, ss) :: rest) k = lookupShots rest k := by
  unfold lookupShots
  rw [List.find?_cons_of_neg _ (by simp [h])]

theorem lookupShots_groupAdd_self (st : List (String × List Screenshot)) (k : String)
    (s : Screenshot) :
    lookupShots (groupAdd st k s) k = lookupShots st k ++ [s] := by
  induction st with
  | nil =>
    show lookupShots [(k, [s])] k = lookupShots [] k ++ [s]
    rw [lookupShots_cons_self]
    rfl
  | cons e rest ih =>
    obtain ⟨k₀, ss⟩ := e
    by_cases hk : k₀ = k
    · subst hk
      simp only [groupAdd, if_pos, eq_self_iff_true, if_true]
      rw [lookupShots_cons_self, lookupShots_cons_self]
    · simp only [groupAdd, if_neg hk]
      rw [lookupShots_cons_ne _ _ _ _ hk, lookupShots_cons_ne _ _ _ _ hk, ih]

theorem lookupShots_groupAdd_ne (st : List (String × List Screenshot)) (k : String)
    (s : Screenshot) (k' : String) (h : ¬ k' = k) :
    lookupShots (groupAdd st k s) k' = lookupShots st k' := by
  induction st with
  | nil =>
    show lookupShots [(k, [s])] k' = lookupShots [] k'
    rw [lookupShots_cons_ne _ _ _ _ (fun he => h he.symm)]
  | cons e rest ih =>
    obtain ⟨k₀, ss⟩ := e
    by_cases hk : k₀ = k
    · subst hk
      simp only [groupAdd, if_pos, eq_self_iff_true, if_true]
      rw [lookupShots_cons_ne _ _ _ _ (fun he => h he.symm),
        lookupShots_cons_ne _ _ _ _ (fun he => h he.symm)]
    · simp only [groupAdd, if_neg hk]
      by_cases hk' : k₀ = k'
      · subst hk'
        rw [lookupShots_cons_self, lookupShots_cons_self]
      · rw [lookupShots_cons_ne _ _ _ _ hk', lookupShots_cons_ne _ _ _ _ hk', ih]

theorem sumShots_groupAdd (st : List (String × List Screenshot)) (k : String) (s : Screenshot) :
    sumShots (groupAdd st k s) = sumShots st + 1 := by
  induction st with
  | nil => rfl
  | cons e rest ih =>
    obtain ⟨k₀, ss⟩ := e
    by_cases hk : k₀ = k
    · simp only [groupAdd, if_pos hk, sumShots, List.map_cons, List.sum_cons,
        List.length_append, List.length_singleton]
      omega
    · simp only [groupAdd, if_neg hk, sumShots, List.map_cons, List.sum_cons]
      simp only [sumShots] at ih
      omega

theorem gStep_eq (st : List (String × List Screenshot)) (p : String) :
    gStep st p = groupAdd st (pathKey p) (pathShot p) := rfl

theorem foldl_keys_nodup :
    ∀ (paths : List String) (st), ((st.map Prod.fst).Nodup) →
      ((paths.foldl gStep st).map Prod.fst).Nodup := by
  intro paths
  induction paths with
  | nil => intro st h; exact h
  | cons p rest ih => intro st h; exact ih _ (groupAdd_nodup _ _ _ h)

theorem foldl_sumShots :
    ∀ (paths : List String) (st), sumShots (paths.foldl gStep st) = sumShots st + paths.length := by
  intro paths
  induction paths with
  | nil => intro st; simp
  | cons p rest ih =>
    intro st
    have h1 := ih (gStep st p)
    simp only [List.foldl_cons, List.length_cons]
    rw [h1, gStep_eq, sumShots_groupAdd]
    omega

theorem foldl_lookup_mono :
    ∀ (paths : List String) (st) (k : String) (s : Screenshot),
      s ∈ lookupShots st k → s ∈ lookupShots (paths.foldl gStep st) k := by
  intro paths
  induction paths with
  | nil => intro st k s h; exact h
  | cons p rest ih =>
    intro st k s h
    rw [List.foldl_cons]
    apply ih
    by_cases h2 : k = pathKey p
    · subst h2
      rw [gStep_eq, lookupShots_groupAdd_self]
      exact List.mem_append_left _ h
    · rw [gStep_eq, lookupShots_groupAdd_ne _ _ _ _ h2]
      exact h

theorem foldl_mem_lookup :
    ∀ (paths : List String) (st) (p : String), p ∈ paths →
      pathShot p ∈ lookupShots (paths.foldl gStep st) (pathKey p) := by
  intro paths
  induction paths with
  | nil => intro st p h; simp at h
  | cons q rest ih =>
    intro st p h
    rcases List.mem_cons.mp h with rfl | h'
    · rw [List.foldl_cons]
      apply foldl_lookup_mono
      rw [gStep_eq, lookupShots_groupAdd_self]
      exact List.mem_append_right _ (List.mem_singleton_self _)
    · rw [List.foldl_cons]
      exact ih _ p h'

theorem foldl_keys_from :
    ∀ (paths : List String) (st) (k : String),
      k ∈ ((paths.foldl gStep st).map Prod.fst) →
      k ∈ st.map Prod.fst ∨ ∃ p ∈ paths, k = pathKey p := by
  intro paths
  induction paths with
  | nil => intro st k h; exact Or.inl h
  | cons q rest ih =>
    intro st k h
    rw [List.foldl_cons] at h
    rcases ih _ k h with h' | ⟨p, hp, hk⟩
    · by_cases hm : pathKey q ∈ st.map Prod.fst
      · rw [gStep_eq, groupAdd_keys_mem _ _ _ hm] at h'
        exact Or.inl h'
      · rw [gStep_eq, groupAdd_keys_not_mem _ _ _ hm] at h'
        rcases List.mem_append.mp h' with h'' | h''
        · exact Or.inl h''
        · right
          exact ⟨q, List.mem_cons_self _ _, by simpa using h''⟩
    · right
      exact ⟨p, List.mem_cons_of_mem _ hp, hk⟩

theorem key_mem_of_lookup (st : List (String × List Screenshot)) (k : String) (s : Screenshot)
    (h : s ∈ lookupShots st k) : k ∈ st.map Prod.fst := by
  unfold lookupShots at h
  cases hf : st.find? (fun e => e.1 == k) with
  | none => rw [hf] at h; simp at h
  | some e =>
    have hmem := List.mem_of_find?_eq_some hf
    have hpred : e.1 = k := by simpa using List.find?_some hf
    exact List.mem_map.mpr ⟨e, hmem, hpred⟩

theorem keys_map_lookup (st : List (String × List Screenshot))
    (h : (st.map Prod.fst).Nodup) :
    (st.map Prod.fst).map (fun k => (lookupShots st k).length) = st.map (fun e => e.2.length) := by
  induction st with
  | nil => rfl
  | cons e rest ih =>
    obtain ⟨k₀, ss⟩ := e
    rw [List.map_cons, List.nodup_cons] at h
    simp only [List.map_cons]
    congr 1
    · rw [lookupShots_cons_self]
    · rw [← ih h.2]
      apply List.map_congr_left
      intro k hk
      have hne : ¬ k₀ = k := fun he => h.1 (he ▸ hk)
      rw [lookupShots_cons_ne _ _ _ _ hne]

theorem seqOption_blockData_some :
    ∀ (ks : List String) (st), (∀ k ∈ ks, (pyInt? k).isSome = true) →
      ∃ bs, seqOption (ks.map (blockData st)) = some bs
        ∧ bs.map (fun b => b.2.2) = ks.map (lookupShots st) := by
  intro ks st
  induction ks with
  | nil => intro _; exact ⟨[], rfl, rfl⟩
  | cons k ks' ih =>
    intro h
    have hk := h k (List.mem_cons_self _ _)
    obtain ⟨n, hn⟩ := Option.isSome_iff_exists.mp hk
    obtain ⟨bs', hbs', hmap⟩ := ih (fun x hx => h x (List.mem_cons_of_mem _ hx))
    refine ⟨(n, descriptionFor k, lookupShots st k) :: bs', ?_, ?_⟩
    · simp [seqOption, blockData, hn, hbs']
    · simp [hmap]

theorem sortedKeys_perm (st : List (String × List Screenshot)) :
    List.Perm (sortedKeys st) (st.map Prod.fst) :=
  List.perm_insertionSort strLe _

theorem sortedKeys_sorted (st : List (String × List Screenshot)) :
    List.Sorted strLe (sortedKeys st) :=
  List.sorted_insertionSort strLe _

theorem listingPaths_perm (names : List String) :
    List.Perm (listingPaths names) (names.map fullPathOf) :=
  List.perm_insertionSort strLe _

theorem buildSteps_eq_foldl (paths : List String) : buildSteps paths = paths.foldl gStep [] := rfl

theorem buildSteps_nodup (paths : List String) : ((buildSteps paths).map Prod.fst).Nodup :=
  foldl_keys_nodup paths [] (by simp)

theorem buildSteps_sum (paths : List String) : sumShots (buildSteps paths) = paths.length := by
  have h := foldl_sumShots paths []
  rw [buildSteps_eq_foldl]
  simpa [sumShots] using h

theorem buildSteps_mem (paths : List String) (p : String) (h : p ∈ paths) :
    pathShot p ∈ lookupShots (buildSteps paths) (pathKey p) :=
  foldl_mem_lookup paths [] p h

theorem buildSteps_keys_from (paths : List String) (k : String)
    (h : k ∈ (buildSteps paths).map Prod.fst) :
    ∃ p ∈ paths, k = pathKey p := by
  rcases foldl_keys_from paths [] k h with h' | h'
  · simp at h'
  · exact h'
/-! Claim theorems. -/

theorem strAppendAssoc (a b c : String) : a ++ b ++ c = a ++ (b ++ c) :=
  String.ext (by simp [String.data_append, List.append_assoc])

/-- C1, counterexample: the step headings do NOT always appear in ascending
numeric order of their prefixes.  For the directory containing exactly
`10_a.png` and `9_b.png`, the report renders the heading for step `10`
before the heading for step `9` (keys are sorted as strings, and
`"10" < "9"` lexicographically), so the displayed step-number sequence is
`[10, 9]`, which is not ascending. -/
theorem C1_counterexample :
    displayedStepNumbers ["10_a.png", "9_b.png"] = some [10, 9]
      ∧ ¬ List.Sorted (· ≤ ·) ([10, 9] : List Int) :=
  ⟨by decide, by decide⟩

/-- C1 (amended): for every set of screenshot files in the directory, any two
files whose filenames share the same prefix string (the component before the
first underscore) are rendered under the same step heading — each appears in
the screenshot group of their common key, every rendered heading key is
distinct, and the headings appear in ascending lexicographic (code-point)
order of the prefix strings rather than ascending numeric order; the two
orders agree when all prefixes are equal-width zero-padded numerals. -/
theorem C1_same_key_same_heading_lex_order (names : List String) (n₁ n₂ : String)
    (h₁ : n₁ ∈ names) (h₂ : n₂ ∈ names)
    (hs₁ : '/' ∉ n₁.data) (hs₂ : '/' ∉ n₂.data)
    (hk : stepKeyOf n₁ = stepKeyOf n₂) :
    (Screenshot.mk (fullPathOf n₁) n₁
        ∈ lookupShots (buildSteps (listingPaths names)) (stepKeyOf n₁)
      ∧ Screenshot.mk (fullPathOf n₂) n₂
        ∈ lookupShots (buildSteps (listingPaths names)) (stepKeyOf n₁))
    ∧ stepKeyOf n₁ ∈ sortedKeys (buildSteps (listingPaths names))
    ∧ List.Sorted strLe (sortedKeys (buildSteps (listingPaths names)))
    ∧ (sortedKeys (buildSteps (listingPaths names))).Nodup := by
  have hp₁ : fullPathOf n₁ ∈ listingPaths names :=
    (listingPaths_perm names).mem_iff.mpr (List.mem_map_of_mem _ h₁)
  have hp₂ : fullPathOf n₂ ∈ listingPaths names :=
    (listingPaths_perm names).mem_iff.mpr (List.mem_map_of_mem _ h₂)
  have hm₁ := buildSteps_mem _ _ hp₁
  have hm₂ := buildSteps_mem _ _ hp₂
  have e₁ : pathShot (fullPathOf n₁) = Screenshot.mk (fullPathOf n₁) n₁ := by
    unfold pathShot
    rw [baseName_fullPath n₁ hs₁]
  have e₂ : pathShot (fullPathOf n₂) = Screenshot.mk (fullPathOf n₂) n₂ := by
    unfold pathShot
    rw [baseName_fullPath n₂ hs₂]
  have k₁ : pathKey (fullPathOf n₁) = stepKeyOf n₁ := by
    unfold pathKey
    rw [baseName_fullPath n₁ hs₁]
  have k₂ : pathKey (fullPathOf n₂) = stepKeyOf n₂ := by
    unfold pathKey
    rw [baseName_fullPath n₂ hs₂]
  rw [e₁, k₁] at hm₁
  rw [e₂, k₂, ← hk] at hm₂
  refine ⟨⟨hm₁, hm₂⟩, ?_, sortedKeys_sorted _, ?_⟩
  · exact (sortedKeys_perm _).mem_iff.mpr (key_mem_of_lookup _ _ _ hm₁)
  · exact (sortedKeys_perm _).nodup_iff.mpr (buildSteps_nodup _)

/-- Witness for C1 (amended): the two files `03_first_1.png` and
`03_second_2.png` share the prefix `03` and are rendered in the same step
group, whose key occurs among the sorted distinct heading keys. -/
theorem C1_same_key_same_heading_lex_order_witness :
    ("03_first_1.png" ∈ (["03_first_1.png", "03_second_2.png"] : List String)
        ∧ "03_second_2.png" ∈ (["03_first_1.png", "03_second_2.png"] : List String)
        ∧ '/' ∉ "03_first_1.png".data ∧ '/' ∉ "03_second_2.png".data
        ∧ stepKeyOf "03_first_1.png" = stepKeyOf "03_second_2.png")
    ∧ ((Screenshot.mk (fullPathOf "03_first_1.png") "03_first_1.png"
          ∈ lookupShots (buildSteps (listingPaths ["03_first_1.png", "03_second_2.png"]))
            (stepKeyOf "03_first_1.png")
        ∧ Screenshot.mk (fullPathOf "03_second_2.png") "03_second_2.png"
          ∈ lookupShots (buildSteps (listingPaths ["03_first_1.png", "03_second_2.png"]))
            (stepKeyOf "03_first_1.png"))
      ∧ stepKeyOf "03_first_1.png"
          ∈ sortedKeys (buildSteps (listingPaths ["03_first_1.png", "03_second_2.png"]))
      ∧ List.Sorted strLe (sortedKeys (buildSteps (listingPaths ["03_first_1.png", "03_second_2.png"])))
      ∧ (sortedKeys (buildSteps (listingPaths ["03_first_1.png", "03_second_2.png"]))).Nodup) :=
  ⟨⟨by decide, by decide, by decide, by decide, by decide⟩,
    C1_same_key_same_heading_lex_order ["03_first_1.png", "03_second_2.png"]
      "03_first_1.png" "03_second_2.png"
      (by decide) (by decide) (by decide) (by decide) (by decide)⟩

/-- C2: for every non-empty set of files named
`{step:02d}_{label}_{timestamp}.png` in the screenshots directory, the run
writes exactly one file, the HTML report at its fixed path, and the number
of screenshot image cards embedded in the report equals the number of input
files. -/
theorem C2_one_report_count_matches (names : List String) (t1 t2 : PyTime)
    (hne : names ≠ []) (hpat : ∀ n ∈ names, matchesPattern n) :
    ∃ html, generate_html_report names t1 t2 = RunResult.wrote report_path html
      ∧ reportImageCount names = names.length := by
  have hlen : (listingPaths names).length = names.length := by
    rw [(listingPaths_perm names).length_eq, List.length_map]
  have hLne : listingPaths names ≠ [] := by
    intro h0
    apply hne
    rw [h0] at hlen
    exact List.length_eq_zero.mp hlen.symm
  have hE : ¬ ((listingPaths names).isEmpty = true) := by
    simpa [List.isEmpty_iff] using hLne
  have hkeys : ∀ k ∈ sortedKeys (buildSteps (listingPaths names)),
      (pyInt? k).isSome = true := by
    intro k hkmem
    have hk2 : k ∈ (buildSteps (listingPaths names)).map Prod.fst :=
      (sortedKeys_perm _).mem_iff.mp hkmem
    obtain ⟨p, hp, rfl⟩ := buildSteps_keys_from _ k hk2
    have hp2 : p ∈ names.map fullPathOf := (listingPaths_perm names).mem_iff.mp hp
    obtain ⟨n', hn', rfl⟩ := List.mem_map.mp hp2
    exact pathKey_of_pattern (hpat n' hn')
  obtain ⟨bs, hbs, hmap⟩ := seqOption_blockData_some _ (buildSteps (listingPaths names)) hkeys
  have hrender : renderAllSteps (buildSteps (listingPaths names))
      = some (String.join (bs.map renderBlockStr)) := by
    unfold renderAllSteps blocksFor
    rw [hbs]
  refine ⟨htmlHeadA ++ strftimeFR t1 ++ htmlHeadB
      ++ toString (buildSteps (listingPaths names)).length ++ htmlHeadC
      ++ toString (listingPaths names).length ++ htmlHeadD
      ++ String.join (bs.map renderBlockStr) ++ footA ++ toString t2.year ++ footB, ?_, ?_⟩
  · simp [generate_html_report, hE, hrender]
  · unfold reportImageCount reportBlocks blocksFor
    rw [hbs]
    show (bs.map (fun b => b.2.2.length)).sum = names.length
    have hlen2 : bs.map (fun b => b.2.2.length)
        = (sortedKeys (buildSteps (listingPaths names))).map
            (fun k => (lookupShots (buildSteps (listingPaths names)) k).length) := by
      have hc := congrArg (List.map List.length) hmap
      simpa [List.map_map, Function.comp] using hc
    rw [hlen2,
      ((sortedKeys_perm (buildSteps (listingPaths names))).map
        (fun k => (lookupShots (buildSteps (listingPaths names)) k).length)).sum_eq,
      keys_map_lookup _ (buildSteps_nodup _)]
    show sumShots (buildSteps (listingPaths names)) = names.length
    rw [buildSteps_sum]
    exact hlen

/-- Witness for C2: the two pattern-conforming files of the example scenario
yield one report write and an embedded image count of 2. -/
theorem C2_one_report_count_matches_witness :
    ((["01_homepage_20250101_000000.png", "02_search_20250101_000001.png"] : List String) ≠ []
      ∧ ∀ n ∈ (["01_homepage_20250101_000000.png",
          "02_search_20250101_000001.png"] : List String), matchesPattern n)
    ∧ ∃ html, generate_html_report
          ["01_homepage_20250101_000000.png", "02_search_20250101_000001.png"]
          someTime someTime
        = RunResult.wrote report_path html
      ∧ reportImageCount ["01_homepage_20250101_000000.png", "02_search_20250101_000001.png"]
        = (["01_homepage_20250101_000000.png",
            "02_search_20250101_000001.png"] : List String).length := by
  have hpat : ∀ n ∈ (["01_homepage_20250101_000000.png",
      "02_search_20250101_000001.png"] : List String), matchesPattern n := by
    intro n hn
    rcases List.mem_cons.mp hn with rfl | hn'
    · exact ⟨1, "homepage".data, "20250101_000000".data, by decide, by decide, by decide⟩
    · rcases List.mem_cons.mp hn' with rfl | hn''
      · exact ⟨2, "search".data, "20250101_000001".data, by decide, by decide, by decide⟩
      · simp at hn''
  exact ⟨⟨by decide, hpat⟩,
    C2_one_report_count_matches _ someTime someTime (by decide) hpat⟩

/-- C3: for a fixed set of screenshot files, two invocations produce the same
outcome, and when a report is written the two outputs are byte-identical
except at the embedded generation-time fields — the header timestamp and the
footer copyright year, the two places the template interpolates
`datetime.now()`. -/
theorem C3_byte_identical_up_to_timestamp (names : List String) (t1 t2 t1' t2' : PyTime) :
    (generate_html_report names t1 t2 = RunResult.noScreenshotsMessage
      ∧ generate_html_report names t1' t2' = RunResult.noScreenshotsMessage)
    ∨ (generate_html_report names t1 t2 = RunResult.valueError
      ∧ generate_html_report names t1' t2' = RunResult.valueError)
    ∨ ∃ mid, generate_html_report names t1 t2
          = RunResult.wrote report_path
              (htmlHeadA ++ strftimeFR t1 ++ mid ++ toString t2.year ++ footB)
        ∧ generate_html_report names t1' t2'
          = RunResult.wrote report_path
              (htmlHeadA ++ strftimeFR t1' ++ mid ++ toString t2'.year ++ footB) := by
  by_cases hE : (listingPaths names).isEmpty
  · left
    constructor <;> simp [generate_html_report, hE]
  · cases hr : renderAllSteps (buildSteps (listingPaths names)) with
    | none =>
      right; left
      constructor <;> simp [generate_html_report, hE, hr]
    | some s =>
      right; right
      refine ⟨htmlHeadB ++ toString (buildSteps (listingPaths names)).length ++ htmlHeadC
        ++ toString (listingPaths names).length ++ htmlHeadD ++ s ++ footA, ?_, ?_⟩
      · simp [generate_html_report, hE, hr, strAppendAssoc]
      · simp [generate_html_report, hE, hr, strAppendAssoc]

/-- C4: on an empty screenshots directory the generator prints its
"no screenshots" message and returns: no file is written and no exception is
raised. -/
theorem C4_empty_directory_no_write (t1 t2 : PyTime) :
    generate_html_report [] t1 t2 = RunResult.noScreenshotsMessage := rfl

/-- C5: for exactly the files `01_homepage_20250101_000000.png` and
`02_search_20250101_000001.png` the report has exactly two step blocks,
titled from the lookup table `Chargement de la page d'accueil` and
`Localisation de la barre de recherche`, each embedding exactly one image;
and a step prefix absent from the lookup table is titled with the generic
fallback `Étape {step_num}`. -/
theorem C5_example_blocks_and_fallback (k : String)
    (hk : ∀ d ∈ step_descriptions, d.1 ≠ k) :
    blockSummary ["01_homepage_20250101_000000.png", "02_search_20250101_000001.png"]
        = some [(1, "Chargement de la page d\x27accueil", 1),
                (2, "Localisation de la barre de recherche", 1)]
      ∧ descriptionFor k = "Étape " ++ k := by
  constructor
  · decide
  · have hf : step_descriptions.find? (fun e => e.1 == k) = none :=
      List.find?_eq_none.mpr (fun d hd => by simpa using hk d hd)
    unfold descriptionFor
    rw [hf]

/-- Witness for C5, at the absent step prefix `99`. -/
theorem C5_example_blocks_and_fallback_witness :
    (∀ d ∈ step_descriptions, d.1 ≠ "99")
    ∧ (blockSummary ["01_homepage_20250101_000000.png", "02_search_20250101_000001.png"]
          = some [(1, "Chargement de la page d\x27accueil", 1),
                  (2, "Localisation de la barre de recherche", 1)]
        ∧ descriptionFor "99" = "Étape " ++ "99") :=
  ⟨by decide, C5_example_blocks_and_fallback "99" (by decide)⟩

/-- C6: every scenario script releases its browser resources on both exit
paths of the scenario body (normal completion and exception), in reverse
order of acquisition: the context is closed first, then the browser, then
the automation driver is stopped (explicitly in `finally`, or by the
enclosing `async with async_playwright()` exit). -/
theorem C6_releases_reverse_order :
    ∀ s ∈ scenarioScripts, ∀ b : Bool,
      releaseSeq (scriptEvents s b)
        = [Act.closeContext, Act.closeBrowser, Act.stopDriver] := by
  decide

/-- Witness for C6: the TC001 script on the exceptional path. -/
theorem C6_releases_reverse_order_witness :
    tc001 ∈ scenarioScripts
      ∧ releaseSeq (scriptEvents tc001 true)
        = [Act.closeContext, Act.closeBrowser, Act.stopDriver] :=
  ⟨by decide, C6_releases_reverse_order tc001 (by decide) true⟩

/-- C7, counterexample: it is not the case that every scenario script takes a
diagnostic screenshot in its top-level exception handler —
`TC001_Homepage_Chrome_Visible.py` catches, logs and re-raises but takes no
screenshot in the handler. -/
theorem C7_counterexample :
    tc001 ∈ scenarioScripts ∧ tc001.handlerScreenshot = false
      ∧ ¬ (∀ s ∈ scenarioScripts, s.handlerScreenshot = true) := by
  decide

/-- C7 (amended): in every scenario script any exception raised during the
scenario is caught by a top-level handler and logged; a diagnostic
screenshot is additionally taken in four of the eight scripts (TC008, TC009,
TC010, TC011); the exception is re-raised (so the process exits non-zero) in
most scripts — five of eight — while in the remaining three (TC011, the auth
test and the user-journey test) it is swallowed and only printed. -/
theorem C7_catch_log_reraise_split :
    (∀ s ∈ scenarioScripts, s.catchesAll = true ∧ s.handlerLogs = true)
      ∧ (scenarioScripts.filter (fun s => s.handlerScreenshot)).map ScriptShape.name
          = ["TC008_Search_Test_Fixed", "TC009_Complete_Search_Test",
             "TC010_Search_Test_With_Screenshots", "TC011_Debug_Search_Input"]
      ∧ (scenarioScripts.filter (fun s => s.handlerReraises)).map ScriptShape.name
          = ["TC001_Homepage_Chrome_Visible", "TC008_Search_Test_Fixed",
             "TC009_Complete_Search_Test", "TC010_Search_Test_With_Screenshots",
             "TC_Interactive_Chrome_Test"]
      ∧ (scenarioScripts.filter (fun s => !s.handlerReraises)).map ScriptShape.name
          = ["TC011_Debug_Search_Input", "TC_Auth_Register_Login_Test",
             "TC_User_Journey_Chrome"]
      ∧ 2 * (scenarioScripts.filter (fun s => s.handlerReraises)).length
          > scenarioScripts.length
      ∧ (∀ s ∈ scenarioScripts, ∀ b : Bool,
          scriptRaises s b = (b && s.handlerReraises)) := by
  decide

/-- C8: a run of the generator never writes a screenshot file: its write
list is empty or consists of the single report file at the fixed report
path, and no path in the screenshots directory can coincide with the report
path (the directory contents are never written, modified or deleted — the
model has no other file effect). -/
theorem C8_only_writes_report (names : List String) (t1 t2 : PyTime) :
    ((writtenFiles (generate_html_report names t1 t2)).map Prod.fst = []
      ∨ (writtenFiles (generate_html_report names t1 t2)).map Prod.fst = [report_path])
    ∧ ∀ n : String, fullPathOf n ≠ report_path := by
  constructor
  · by_cases hE : (listingPaths names).isEmpty
    · left
      simp [generate_html_report, hE, writtenFiles]
    · cases hr : renderAllSteps (buildSteps (listingPaths names)) with
      | none =>
        left
        simp [generate_html_report, hE, hr, writtenFiles]
      | some s =>
        right
        simp [generate_html_report, hE, hr, writtenFiles]
  · intro n hn
    have hd := congrArg String.data hn
    rw [fullPath_data] at hd
    have h18 := congrArg (List.take 18) hd
    rw [List.take_append_of_le_length (by decide)] at h18
    exact absurd h18 (by decide)

/-- C10: grouping is by the literal prefix string, not its numeric value:
for the files `1_a.png` and `01_b.png` the report contains two distinct step
blocks, both displaying step number 1 (the first even titled from the `01`
table entry), with one image each; the heading keys are ordered
lexicographically as `["01", "1"]`, and in general the rendered heading keys
of any input are sorted in code-point lexicographic order. -/
theorem C10_grouping_is_by_string :
    blockSummary ["1_a.png", "01_b.png"]
        = some [(1, "Chargement de la page d\x27accueil", 1), (1, "Étape 1", 1)]
      ∧ sortedKeys (buildSteps (listingPaths ["1_a.png", "01_b.png"])) = ["01", "1"]
      ∧ ∀ names : List String,
          List.Sorted strLe (sortedKeys (buildSteps (listingPaths names))) :=
  ⟨by decide, by decide, fun _ => sortedKeys_sorted _⟩
